import Mathlib

/-!
Verification development for the FII/DII strength-classification pipeline.

The definitions below are shallow embeddings of the Python sources:
* `custom_percentile_method_2.py` — `get_threshold`, `get_strength_level`,
  `get_direction`, `apply_truth_table`, `calculate_strength_for_date`;
* `fii_strength_calculator_3.py` and `unnamed/part_000`
  (`FIIStrengthCalculatorRespective`) — the guarded `get_threshold`, the
  `net_oi_mapping` tables, and `calculate_accuracy_summary`.

Python floats are modelled as `ℚ`; a Python `IndexError` is modelled by
`Option` (`none` = the call raises).  Dictionaries keyed by strings or string
tuples are modelled as association lists with `List.lookup`, whose `getD`
default mirrors Python's `dict.get(key, default)`.
-/

/-- Python-style list indexing `l[i]`: non-negative indices from the front,
negative indices from the end, `none` models `IndexError`. -/
def pyGet (l : List ℚ) (i : ℤ) : Option ℚ :=
  if 0 ≤ i then l.get? i.toNat
  else if 0 ≤ i + l.length then l.get? (i + l.length).toNat
  else none

/-- Embedding of `get_threshold` from `custom_percentile_method_2.py`
(lines 31-41): `t_pos = (percentile/100)*(len-1)`, `divmod(t_pos, 1)` gives
floor and fractional part, then either a direct hit or linear interpolation.
There is no emptiness guard in this variant. -/
def get_threshold (percentile : ℚ) (sorted_list : List ℚ) : Option ℚ :=
  let t_pos : ℚ := percentile / 100 * ((sorted_list.length : ℚ) - 1)
  let t_pos_int : ℤ := ⌊t_pos⌋
  let t_pos_frac : ℚ := t_pos - ⌊t_pos⌋
  if t_pos_frac = 0 then pyGet sorted_list t_pos_int
  else do
    let a ← pyGet sorted_list t_pos_int
    let b ← pyGet sorted_list (t_pos_int + 1)
    pure (a + t_pos_frac * (b - a))

/-- Embedding of the guarded `get_threshold` from
`fii_strength_calculator_3.py` (lines 109-126) and `unnamed/part_000`
(lines 122-139): an empty sample returns `0`, a singleton returns its
element, an integer position at or beyond `len-1` is clamped to the last
element, otherwise the same interpolation as the unguarded variant. -/
def get_threshold_guarded (percentile : ℚ) (sorted_list : List ℚ) : Option ℚ :=
  if sorted_list.length ≤ 1 then
    if sorted_list.isEmpty then some 0 else pyGet sorted_list 0
  else
    let t_pos : ℚ := percentile / 100 * ((sorted_list.length : ℚ) - 1)
    let t_pos_int : ℤ := ⌊t_pos⌋
    let t_pos_frac : ℚ := t_pos - ⌊t_pos⌋
    if (sorted_list.length : ℤ) - 1 ≤ t_pos_int then pyGet sorted_list (-1)
    else if t_pos_frac = 0 then pyGet sorted_list t_pos_int
    else do
      let a ← pyGet sorted_list t_pos_int
      let b ← pyGet sorted_list (t_pos_int + 1)
      pure (a + t_pos_frac * (b - a))

/-- Closed form of one interpolation step: the value `get_threshold`
produces at position `x` (both branches coincide when the fractional part is
zero).  Used to state evaluation and monotonicity lemmas. -/
def interp (l : List ℚ) (x : ℚ) : ℚ :=
  l.getD (⌊x⌋).toNat 0 +
    (x - ⌊x⌋) * (l.getD ((⌊x⌋).toNat + 1) 0 - l.getD (⌊x⌋).toNat 0)

/-- Embedding of `get_strength_level` from `custom_percentile_method_2.py`
(lines 43-62): the `is_change` flag selects between two textually identical
case splits (`abs(value) >= p80` ⇒ STRONG, `>= p40/p20` ⇒ MEDIUM, else
MILD). -/
def get_strength_level (value percentile_80 percentile_40_20 : ℚ)
    (is_change : Bool) : String :=
  if is_change then
    if percentile_80 ≤ |value| then "STRONG"
    else if percentile_40_20 ≤ |value| then "MEDIUM"
    else "MILD"
  else
    if percentile_80 ≤ |value| then "STRONG"
    else if percentile_40_20 ≤ |value| then "MEDIUM"
    else "MILD"

/-- Embedding of `get_direction` from `custom_percentile_method_2.py`
(lines 64-75): futures and calls map `value > 0` to BULLISH, puts invert,
unknown segments behave like futures. -/
def get_direction (value : ℚ) (segment_type : String) : String :=
  if segment_type ∈ ["FUTURE_INDEX", "FUTURE-INDEX", "INDEX_FUTURES"] then
    if 0 < value then "BULLISH" else "BEARISH"
  else if segment_type ∈ ["CALL", "CALL_OPTIONS", "CALL_OI", "Call Options"] then
    if 0 < value then "BULLISH" else "BEARISH"
  else if segment_type ∈ ["PUT", "PUT_OPTIONS", "PUT_OI", "Put Options"] then
    if 0 < value then "BEARISH" else "BULLISH"
  else
    if 0 < value then "BULLISH" else "BEARISH"

/-- Embedding of `get_direction` from `unnamed/part_000` (lines 153-158):
the put branch is selected by the Python substring test
`'Put Options' in segment_name`. -/
def get_direction_respective (value : ℚ) (segment_name : String) : String :=
  if "Put Options".toList <:+: segment_name.toList then
    if 0 < value then "BEARISH" else "BULLISH"
  else
    if 0 < value then "BULLISH" else "BEARISH"

/-- Direction negation used to state the put-versus-call relation of the
spec (§8): BULLISH and BEARISH swap, anything else is left unchanged. -/
def negate_direction (d : String) : String :=
  if d = "BULLISH" then "BEARISH"
  else if d = "BEARISH" then "BULLISH"
  else d

/-- The 36-entry OI-by-change `truth_table` dictionary of
`custom_percentile_method_2.py` (lines 85-127); the identical table appears
in `fii_strength_calculator_3.py` and `unnamed/part_000`. -/
def truth_table : List ((String × String) × String) :=
  [(("STRONG BULLISH", "STRONG BULLISH"), "STRONG BULLISH"),
   (("STRONG BULLISH", "MEDIUM BULLISH"), "STRONG BULLISH"),
   (("STRONG BULLISH", "MILD BULLISH"), "STRONG BULLISH"),
   (("STRONG BULLISH", "STRONG BEARISH"), "INDECISIVE"),
   (("STRONG BULLISH", "MEDIUM BEARISH"), "INDECISIVE"),
   (("STRONG BULLISH", "MILD BEARISH"), "STRONG BULLISH"),
   (("MEDIUM BULLISH", "STRONG BULLISH"), "STRONG BULLISH"),
   (("MEDIUM BULLISH", "MEDIUM BULLISH"), "MEDIUM BULLISH"),
   (("MEDIUM BULLISH", "MILD BULLISH"), "MEDIUM BULLISH"),
   (("MEDIUM BULLISH", "STRONG BEARISH"), "INDECISIVE"),
   (("MEDIUM BULLISH", "MEDIUM BEARISH"), "INDECISIVE"),
   (("MEDIUM BULLISH", "MILD BEARISH"), "MEDIUM BULLISH"),
   (("MILD BULLISH", "STRONG BULLISH"), "MEDIUM BULLISH"),
   (("MILD BULLISH", "MEDIUM BULLISH"), "MILD BULLISH"),
   (("MILD BULLISH", "MILD BULLISH"), "MILD BULLISH"),
   (("MILD BULLISH", "STRONG BEARISH"), "MEDIUM BEARISH"),
   (("MILD BULLISH", "MEDIUM BEARISH"), "INDECISIVE"),
   (("MILD BULLISH", "MILD BEARISH"), "INDECISIVE"),
   (("STRONG BEARISH", "STRONG BULLISH"), "INDECISIVE"),
   (("STRONG BEARISH", "MEDIUM BULLISH"), "INDECISIVE"),
   (("STRONG BEARISH", "MILD BULLISH"), "STRONG BEARISH"),
   (("STRONG BEARISH", "STRONG BEARISH"), "STRONG BEARISH"),
   (("STRONG BEARISH", "MEDIUM BEARISH"), "STRONG BEARISH"),
   (("STRONG BEARISH", "MILD BEARISH"), "STRONG BEARISH"),
   (("MEDIUM BEARISH", "STRONG BULLISH"), "INDECISIVE"),
   (("MEDIUM BEARISH", "MEDIUM BULLISH"), "INDECISIVE"),
   (("MEDIUM BEARISH", "MILD BULLISH"), "MEDIUM BEARISH"),
   (("MEDIUM BEARISH", "STRONG BEARISH"), "STRONG BEARISH"),
   (("MEDIUM BEARISH", "MEDIUM BEARISH"), "MEDIUM BEARISH"),
   (("MEDIUM BEARISH", "MILD BEARISH"), "MEDIUM BEARISH"),
   (("MILD BEARISH", "STRONG BULLISH"), "MEDIUM BULLISH"),
   (("MILD BEARISH", "MEDIUM BULLISH"), "INDECISIVE"),
   (("MILD BEARISH", "MILD BULLISH"), "INDECISIVE"),
   (("MILD BEARISH", "STRONG BEARISH"), "MEDIUM BEARISH"),
   (("MILD BEARISH", "MEDIUM BEARISH"), "MILD BEARISH"),
   (("MILD BEARISH", "MILD BEARISH"), "MILD BEARISH")]

/-- Embedding of `apply_truth_table` (`custom_percentile_method_2.py`
lines 77-129): the tier and direction are concatenated with a space and the
pair is looked up in `truth_table`, defaulting to INDECISIVE exactly like
`dict.get(key, "INDECISIVE")`. -/
def apply_truth_table (oi_strength oi_direction change_strength change_direction : String) :
    String :=
  let oi_combined := oi_strength ++ " " ++ oi_direction
  let change_combined := change_strength ++ " " ++ change_direction
  (truth_table.lookup (oi_combined, change_combined)).getD "INDECISIVE"

/-- Strength tiers of the spec's data model (§3). -/
inductive Tier
  | STRONG
  | MEDIUM
  | MILD
deriving DecidableEq

/-- Directions of the spec's data model (§3). -/
inductive Dir
  | BULLISH
  | BEARISH
deriving DecidableEq

/-- Labels of the spec's data model (§3): a decisive tier-direction pair or
the INDECISIVE sentinel. -/
inductive SpecLabel
  | decisive : Tier → Dir → SpecLabel
  | IND : SpecLabel
deriving DecidableEq

/-- String rendering of a tier, matching the source's string constants. -/
def tier_str : Tier → String
  | .STRONG => "STRONG"
  | .MEDIUM => "MEDIUM"
  | .MILD => "MILD"

/-- String rendering of a direction, matching the source's string
constants. -/
def dir_str : Dir → String
  | .BULLISH => "BULLISH"
  | .BEARISH => "BEARISH"

/-- String rendering of a label: `"TIER DIRECTION"` or `"INDECISIVE"`. -/
def label_str : SpecLabel → String
  | .decisive t d => tier_str t ++ " " ++ dir_str d
  | .IND => "INDECISIVE"

/-- Modelled from the spec: the 6x6 compatibility matrix of §4.3, rows
indexed by the OI label, columns by the change label. -/
def spec_truth_matrix : Tier → Dir → Tier → Dir → SpecLabel
  | .STRONG, .BULLISH, .STRONG, .BULLISH => .decisive .STRONG .BULLISH
  | .STRONG, .BULLISH, .MEDIUM, .BULLISH => .decisive .STRONG .BULLISH
  | .STRONG, .BULLISH, .MILD, .BULLISH => .decisive .STRONG .BULLISH
  | .STRONG, .BULLISH, .STRONG, .BEARISH => .IND
  | .STRONG, .BULLISH, .MEDIUM, .BEARISH => .IND
  | .STRONG, .BULLISH, .MILD, .BEARISH => .decisive .STRONG .BULLISH
  | .MEDIUM, .BULLISH, .STRONG, .BULLISH => .decisive .STRONG .BULLISH
  | .MEDIUM, .BULLISH, .MEDIUM, .BULLISH => .decisive .MEDIUM .BULLISH
  | .MEDIUM, .BULLISH, .MILD, .BULLISH => .decisive .MEDIUM .BULLISH
  | .MEDIUM, .BULLISH, .STRONG, .BEARISH => .IND
  | .MEDIUM, .BULLISH, .MEDIUM, .BEARISH => .IND
  | .MEDIUM, .BULLISH, .MILD, .BEARISH => .decisive .MEDIUM .BULLISH
  | .MILD, .BULLISH, .STRONG, .BULLISH => .decisive .MEDIUM .BULLISH
  | .MILD, .BULLISH, .MEDIUM, .BULLISH => .decisive .MILD .BULLISH
  | .MILD, .BULLISH, .MILD, .BULLISH => .decisive .MILD .BULLISH
  | .MILD, .BULLISH, .STRONG, .BEARISH => .decisive .MEDIUM .BEARISH
  | .MILD, .BULLISH, .MEDIUM, .BEARISH => .IND
  | .MILD, .BULLISH, .MILD, .BEARISH => .IND
  | .STRONG, .BEARISH, .STRONG, .BULLISH => .IND
  | .STRONG, .BEARISH, .MEDIUM, .BULLISH => .IND
  | .STRONG, .BEARISH, .MILD, .BULLISH => .decisive .STRONG .BEARISH
  | .STRONG, .BEARISH, .STRONG, .BEARISH => .decisive .STRONG .BEARISH
  | .STRONG, .BEARISH, .MEDIUM, .BEARISH => .decisive .STRONG .BEARISH
  | .STRONG, .BEARISH, .MILD, .BEARISH => .decisive .STRONG .BEARISH
  | .MEDIUM, .BEARISH, .STRONG, .BULLISH => .IND
  | .MEDIUM, .BEARISH, .MEDIUM, .BULLISH => .IND
  | .MEDIUM, .BEARISH, .MILD, .BULLISH => .decisive .MEDIUM .BEARISH
  | .MEDIUM, .BEARISH, .STRONG, .BEARISH => .decisive .STRONG .BEARISH
  | .MEDIUM, .BEARISH, .MEDIUM, .BEARISH => .decisive .MEDIUM .BEARISH
  | .MEDIUM, .BEARISH, .MILD, .BEARISH => .decisive .MEDIUM .BEARISH
  | .MILD, .BEARISH, .STRONG, .BULLISH => .decisive .MEDIUM .BULLISH
  | .MILD, .BEARISH, .MEDIUM, .BULLISH => .IND
  | .MILD, .BEARISH, .MILD, .BULLISH => .IND
  | .MILD, .BEARISH, .STRONG, .BEARISH => .decisive .MEDIUM .BEARISH
  | .MILD, .BEARISH, .MEDIUM, .BEARISH => .decisive .MILD .BEARISH
  | .MILD, .BEARISH, .MILD, .BEARISH => .decisive .MILD .BEARISH

/-- Direction flip used by the symmetry claim: BULLISH and BEARISH swap. -/
def flip_dir : Dir → Dir
  | .BULLISH => .BEARISH
  | .BEARISH => .BULLISH

/-- Label-string flip for the symmetry claim: the direction word swaps,
INDECISIVE (and any other string) is unchanged. -/
def flip_label_str (s : String) : String :=
  if s = "STRONG BULLISH" then "STRONG BEARISH"
  else if s = "STRONG BEARISH" then "STRONG BULLISH"
  else if s = "MEDIUM BULLISH" then "MEDIUM BEARISH"
  else if s = "MEDIUM BEARISH" then "MEDIUM BULLISH"
  else if s = "MILD BULLISH" then "MILD BEARISH"
  else if s = "MILD BEARISH" then "MILD BULLISH"
  else s

/-- The `net_oi_mapping` dictionary of `fii_strength_calculator_3.py`
(lines 251-294): keys are (call final tuple, put final tuple); the conflict
pairs carry tier INDECISIVE with a VOLATILE or NEUTRAL tag. -/
def net_oi_mapping :
    List (((String × String) × (String × String)) × (String × String)) :=
  [((("MEDIUM", "BULLISH"), ("INDECISIVE", "INDECISIVE")), ("MEDIUM", "BULLISH")),
   ((("MEDIUM", "BULLISH"), ("MEDIUM", "BEARISH")), ("INDECISIVE", "VOLATILE")),
   ((("MEDIUM", "BULLISH"), ("MEDIUM", "BULLISH")), ("MEDIUM", "BULLISH")),
   ((("MEDIUM", "BULLISH"), ("STRONG", "BEARISH")), ("MEDIUM", "BEARISH")),
   ((("MEDIUM", "BULLISH"), ("STRONG", "BULLISH")), ("STRONG", "BULLISH")),
   ((("MEDIUM", "BULLISH"), ("MILD", "BEARISH")), ("MEDIUM", "BULLISH")),
   ((("MEDIUM", "BULLISH"), ("MILD", "BULLISH")), ("MEDIUM", "BULLISH")),
   ((("MEDIUM", "BEARISH"), ("INDECISIVE", "INDECISIVE")), ("MEDIUM", "BEARISH")),
   ((("MEDIUM", "BEARISH"), ("MEDIUM", "BEARISH")), ("MEDIUM", "BEARISH")),
   ((("MEDIUM", "BEARISH"), ("MEDIUM", "BULLISH")), ("INDECISIVE", "NEUTRAL")),
   ((("MEDIUM", "BEARISH"), ("STRONG", "BEARISH")), ("STRONG", "BEARISH")),
   ((("MEDIUM", "BEARISH"), ("STRONG", "BULLISH")), ("STRONG", "BULLISH")),
   ((("MEDIUM", "BEARISH"), ("MILD", "BEARISH")), ("MEDIUM", "BEARISH")),
   ((("MEDIUM", "BEARISH"), ("MILD", "BULLISH")), ("MEDIUM", "BEARISH")),
   ((("STRONG", "BULLISH"), ("INDECISIVE", "INDECISIVE")), ("STRONG", "BULLISH")),
   ((("STRONG", "BULLISH"), ("MEDIUM", "BEARISH")), ("MEDIUM", "BULLISH")),
   ((("STRONG", "BULLISH"), ("MEDIUM", "BULLISH")), ("STRONG", "BULLISH")),
   ((("STRONG", "BULLISH"), ("STRONG", "BEARISH")), ("INDECISIVE", "VOLATILE")),
   ((("STRONG", "BULLISH"), ("STRONG", "BULLISH")), ("STRONG", "BULLISH")),
   ((("STRONG", "BULLISH"), ("MILD", "BEARISH")), ("STRONG", "BULLISH")),
   ((("STRONG", "BULLISH"), ("MILD", "BULLISH")), ("STRONG", "BULLISH")),
   ((("STRONG", "BEARISH"), ("INDECISIVE", "INDECISIVE")), ("STRONG", "BEARISH")),
   ((("STRONG", "BEARISH"), ("MEDIUM", "BEARISH")), ("STRONG", "BEARISH")),
   ((("STRONG", "BEARISH"), ("MEDIUM", "BULLISH")), ("MEDIUM", "BEARISH")),
   ((("STRONG", "BEARISH"), ("STRONG", "BEARISH")), ("STRONG", "BEARISH")),
   ((("STRONG", "BEARISH"), ("STRONG", "BULLISH")), ("INDECISIVE", "NEUTRAL")),
   ((("STRONG", "BEARISH"), ("MILD", "BEARISH")), ("STRONG", "BEARISH")),
   ((("STRONG", "BEARISH"), ("MILD", "BULLISH")), ("STRONG", "BEARISH")),
   ((("MILD", "BULLISH"), ("INDECISIVE", "INDECISIVE")), ("INDECISIVE", "INDECISIVE")),
   ((("MILD", "BULLISH"), ("MEDIUM", "BEARISH")), ("MILD", "BEARISH")),
   ((("MILD", "BULLISH"), ("MEDIUM", "BULLISH")), ("MEDIUM", "BULLISH")),
   ((("MILD", "BULLISH"), ("STRONG", "BEARISH")), ("STRONG", "BEARISH")),
   ((("MILD", "BULLISH"), ("STRONG", "BULLISH")), ("STRONG", "BULLISH")),
   ((("MILD", "BULLISH"), ("MILD", "BEARISH")), ("INDECISIVE", "INDECISIVE")),
   ((("MILD", "BULLISH"), ("MILD", "BULLISH")), ("MILD", "BULLISH")),
   ((("MILD", "BEARISH"), ("INDECISIVE", "INDECISIVE")), ("INDECISIVE", "INDECISIVE")),
   ((("MILD", "BEARISH"), ("MEDIUM", "BEARISH")), ("MEDIUM", "BEARISH")),
   ((("MILD", "BEARISH"), ("MEDIUM", "BULLISH")), ("MEDIUM", "BULLISH")),
   ((("MILD", "BEARISH"), ("STRONG", "BEARISH")), ("STRONG", "BEARISH")),
   ((("MILD", "BEARISH"), ("STRONG", "BULLISH")), ("STRONG", "BULLISH")),
   ((("MILD", "BEARISH"), ("MILD", "BEARISH")), ("INDECISIVE", "INDECISIVE")),
   ((("MILD", "BEARISH"), ("MILD", "BULLISH")), ("INDECISIVE", "INDECISIVE"))]

/-- The `net_oi_mapping` dictionary of `unnamed/part_000` (lines 275-325):
the same table except that the conflict pairs map to tier VOLATILE or
NEUTRAL (not tier INDECISIVE) and the (INDECISIVE, *) rows are present
explicitly. -/
def net_oi_mapping_respective :
    List (((String × String) × (String × String)) × (String × String)) :=
  [((("MEDIUM", "BULLISH"), ("INDECISIVE", "INDECISIVE")), ("MEDIUM", "BULLISH")),
   ((("MEDIUM", "BULLISH"), ("MEDIUM", "BEARISH")), ("VOLATILE", "VOLATILE")),
   ((("MEDIUM", "BULLISH"), ("MEDIUM", "BULLISH")), ("MEDIUM", "BULLISH")),
   ((("MEDIUM", "BULLISH"), ("STRONG", "BEARISH")), ("MEDIUM", "BEARISH")),
   ((("MEDIUM", "BULLISH"), ("STRONG", "BULLISH")), ("STRONG", "BULLISH")),
   ((("MEDIUM", "BULLISH"), ("MILD", "BEARISH")), ("MEDIUM", "BULLISH")),
   ((("MEDIUM", "BULLISH"), ("MILD", "BULLISH")), ("MEDIUM", "BULLISH")),
   ((("MEDIUM", "BEARISH"), ("INDECISIVE", "INDECISIVE")), ("MEDIUM", "BEARISH")),
   ((("MEDIUM", "BEARISH"), ("MEDIUM", "BEARISH")), ("MEDIUM", "BEARISH")),
   ((("MEDIUM", "BEARISH"), ("MEDIUM", "BULLISH")), ("NEUTRAL", "NEUTRAL")),
   ((("MEDIUM", "BEARISH"), ("STRONG", "BEARISH")), ("STRONG", "BEARISH")),
   ((("MEDIUM", "BEARISH"), ("STRONG", "BULLISH")), ("STRONG", "BULLISH")),
   ((("MEDIUM", "BEARISH"), ("MILD", "BEARISH")), ("MEDIUM", "BEARISH")),
   ((("MEDIUM", "BEARISH"), ("MILD", "BULLISH")), ("MEDIUM", "BEARISH")),
   ((("STRONG", "BULLISH"), ("INDECISIVE", "INDECISIVE")), ("STRONG", "BULLISH")),
   ((("STRONG", "BULLISH"), ("MEDIUM", "BEARISH")), ("MEDIUM", "BULLISH")),
   ((("STRONG", "BULLISH"), ("MEDIUM", "BULLISH")), ("STRONG", "BULLISH")),
   ((("STRONG", "BULLISH"), ("STRONG", "BEARISH")), ("VOLATILE", "VOLATILE")),
   ((("STRONG", "BULLISH"), ("STRONG", "BULLISH")), ("STRONG", "BULLISH")),
   ((("STRONG", "BULLISH"), ("MILD", "BEARISH")), ("STRONG", "BULLISH")),
   ((("STRONG", "BULLISH"), ("MILD", "BULLISH")), ("STRONG", "BULLISH")),
   ((("STRONG", "BEARISH"), ("INDECISIVE", "INDECISIVE")), ("STRONG", "BEARISH")),
   ((("STRONG", "BEARISH"), ("MEDIUM", "BEARISH")), ("STRONG", "BEARISH")),
   ((("STRONG", "BEARISH"), ("MEDIUM", "BULLISH")), ("MEDIUM", "BEARISH")),
   ((("STRONG", "BEARISH"), ("STRONG", "BEARISH")), ("STRONG", "BEARISH")),
   ((("STRONG", "BEARISH"), ("STRONG", "BULLISH")), ("NEUTRAL", "NEUTRAL")),
   ((("STRONG", "BEARISH"), ("MILD", "BEARISH")), ("STRONG", "BEARISH")),
   ((("STRONG", "BEARISH"), ("MILD", "BULLISH")), ("STRONG", "BEARISH")),
   ((("MILD", "BULLISH"), ("INDECISIVE", "INDECISIVE")), ("INDECISIVE", "INDECISIVE")),
   ((("MILD", "BULLISH"), ("MEDIUM", "BEARISH")), ("MILD", "BEARISH")),
   ((("MILD", "BULLISH"), ("MEDIUM", "BULLISH")), ("MEDIUM", "BULLISH")),
   ((("MILD", "BULLISH"), ("STRONG", "BEARISH")), ("STRONG", "BEARISH")),
   ((("MILD", "BULLISH"), ("STRONG", "BULLISH")), ("STRONG", "BULLISH")),
   ((("MILD", "BULLISH"), ("MILD", "BEARISH")), ("INDECISIVE", "INDECISIVE")),
   ((("MILD", "BULLISH"), ("MILD", "BULLISH")), ("MILD", "BULLISH")),
   ((("MILD", "BEARISH"), ("INDECISIVE", "INDECISIVE")), ("INDECISIVE", "INDECISIVE")),
   ((("MILD", "BEARISH"), ("MEDIUM", "BEARISH")), ("MEDIUM", "BEARISH")),
   ((("MILD", "BEARISH"), ("MEDIUM", "BULLISH")), ("MEDIUM", "BULLISH")),
   ((("MILD", "BEARISH"), ("STRONG", "BEARISH")), ("STRONG", "BEARISH")),
   ((("MILD", "BEARISH"), ("STRONG", "BULLISH")), ("STRONG", "BULLISH")),
   ((("MILD", "BEARISH"), ("MILD", "BEARISH")), ("INDECISIVE", "INDECISIVE")),
   ((("MILD", "BEARISH"), ("MILD", "BULLISH")), ("INDECISIVE", "INDECISIVE")),
   ((("INDECISIVE", "INDECISIVE"), ("INDECISIVE", "INDECISIVE")), ("INDECISIVE", "INDECISIVE")),
   ((("INDECISIVE", "INDECISIVE"), ("MEDIUM", "BEARISH")), ("MEDIUM", "BEARISH")),
   ((("INDECISIVE", "INDECISIVE"), ("MEDIUM", "BULLISH")), ("MEDIUM", "BULLISH")),
   ((("INDECISIVE", "INDECISIVE"), ("MILD", "BEARISH")), ("INDECISIVE", "INDECISIVE")),
   ((("INDECISIVE", "INDECISIVE"), ("MILD", "BULLISH")), ("INDECISIVE", "INDECISIVE")),
   ((("INDECISIVE", "INDECISIVE"), ("STRONG", "BEARISH")), ("STRONG", "BEARISH")),
   ((("INDECISIVE", "INDECISIVE"), ("STRONG", "BULLISH")), ("STRONG", "BULLISH"))]

/-- The net-options lookup of `fii_strength_calculator_3.py` line 348:
`net_oi_mapping.get((call_tuple, put_tuple), ("INDECISIVE", "INDECISIVE"))`. -/
def net_compose (call_tuple put_tuple : String × String) : String × String :=
  (net_oi_mapping.lookup (call_tuple, put_tuple)).getD ("INDECISIVE", "INDECISIVE")

/-- The net-options lookup of `unnamed/part_000` line 382, over the
respective-script table. -/
def net_compose_respective (call_tuple put_tuple : String × String) : String × String :=
  (net_oi_mapping_respective.lookup (call_tuple, put_tuple)).getD
    ("INDECISIVE", "INDECISIVE")

/-- Final rendering of the net tuple (`fii_strength_calculator_3.py`
line 350 and `unnamed/part_000` line 384):
`f"{intensity} {sentiment}"` unless the sentiment is INDECISIVE. -/
def render_net_final (net_tuple : String × String) : String :=
  if net_tuple.2 ≠ "INDECISIVE" then net_tuple.1 ++ " " ++ net_tuple.2
  else "INDECISIVE"

/-- Window of `calculate_accuracy_summary` (`unnamed/part_000` line 511):
the percentile sample is drawn from `all_dates[:lookback_days]`, the
`lookback_days` most recent distinct trading dates overall, independent of
the date being scored.  `all_dates` is sorted descending. -/
def acc_hist_dates (all_dates : List ℕ) (lookback_days : ℕ) : List ℕ :=
  all_dates.take lookback_days

/-- Scored dates of `calculate_accuracy_summary` (`unnamed/part_000`
line 509): `all_dates[1:lookback_days]`, i.e. every analysed date except the
most recent one. -/
def acc_analysis_dates (all_dates : List ℕ) (lookback_days : ℕ) : List ℕ :=
  (all_dates.drop 1).take (lookback_days - 1)

/-- Per-date rolling window of `calculate_strength_for_date`
(`custom_percentile_method_2.py` lines 176-185): the distinct dates
at-or-before the target, sorted descending, truncated to `lookback_days`
entries when enough are available. -/
def rolling_lookback_dates (df_dates : List ℕ) (target_date lookback_days : ℕ) :
    List ℕ :=
  let all_dates_before_target :=
    ((df_dates.filter (fun d => d ≤ target_date)).dedup).insertionSort (· ≥ ·)
  if lookback_days ≤ all_dates_before_target.length then
    all_dates_before_target.take lookback_days
  else all_dates_before_target

/-- Outcome of scoring one date and institution in the backtest. -/
inductive PredOutcome
  | correct
  | wrong
  | indecisive
deriving DecidableEq

/-- Embedding of the per-date scoring step of `calculate_accuracy_summary`
(`unnamed/part_000` lines 627-662): an empty expectation string is counted
indecisive and nothing further is evaluated; the recognised expectation
strings are compared against the next-day return and the threshold; an
unrecognised non-empty string is also counted indecisive. -/
def evaluate_prediction (exp_str : String) (next_change_pct actual_threshold : ℚ) :
    PredOutcome :=
  if exp_str = "" then .indecisive
  else if exp_str = "UP" then
    if 0 < next_change_pct then .correct else .wrong
  else if exp_str = "DOWN" then
    if next_change_pct < 0 then .correct else .wrong
  else if exp_str = "FLAT" ∨ exp_str = "NEUTRAL" then
    if |next_change_pct| ≤ actual_threshold then .correct else .wrong
  else if exp_str = "FLAT OR UP" then
    if -actual_threshold ≤ next_change_pct then .correct else .wrong
  else if exp_str = "FLAT OR DOWN" then
    if next_change_pct ≤ actual_threshold then .correct else .wrong
  else if exp_str = "VOLATILE" then
    if actual_threshold < |next_change_pct| then .correct else .wrong
  else .indecisive

/-- The movement thresholds of `calculate_accuracy_summary`
(`unnamed/part_000` line 583). -/
def backtest_thresholds : List ℚ :=
  [2/10, 3/10, 4/10]

/-- The expectation strings that occur in the `expectations` table of
`calculate_accuracy_summary` (including the empty string). -/
def expectation_strings : List String :=
  ["", "UP", "DOWN", "FLAT", "NEUTRAL", "FLAT OR UP", "FLAT OR DOWN", "VOLATILE"]

/-- Tallies of the backtest loop for one institution and one threshold: a
fold of `evaluate_prediction` over the (expectation string, next-day return)
observations, accumulating (correct, wrong, indecisive) like the mutable
`counts` dictionary of `calculate_accuracy_summary`. -/
def tally : List (String × ℚ) → ℚ → ℕ × ℕ × ℕ
  | [], _ => (0, 0, 0)
  | ob :: rest, t =>
    let prev := tally rest t
    match evaluate_prediction ob.1 ob.2 t with
    | .correct => (prev.1 + 1, prev.2.1, prev.2.2)
    | .wrong => (prev.1, prev.2.1 + 1, prev.2.2)
    | .indecisive => (prev.1, prev.2.1, prev.2.2 + 1)

/-- Reported accuracy percentage (`unnamed/part_000` line 668):
`(c / (c + w) * 100) if (c + w) > 0 else 0`. -/
def report_percent (observations : List (String × ℚ)) (actual_threshold : ℚ) : ℚ :=
  let c := (tally observations actual_threshold).1
  let w := (tally observations actual_threshold).2.1
  if 0 < c + w then (c : ℚ) / ((c : ℚ) + (w : ℚ)) * 100 else 0

/-- Modelled from the spec: the correctness condition of §4.6 step 4, read
off the claim's wording, as a Boolean predicate on the expectation string. -/
def spec_correct (exp_str : String) (next_return_pct threshold : ℚ) : Bool :=
  (exp_str == "UP" && decide (0 < next_return_pct)) ||
  (exp_str == "DOWN" && decide (next_return_pct < 0)) ||
  ((exp_str == "FLAT" || exp_str == "NEUTRAL") && decide (|next_return_pct| ≤ threshold)) ||
  (exp_str == "FLAT OR UP" && decide (-threshold ≤ next_return_pct)) ||
  (exp_str == "FLAT OR DOWN" && decide (next_return_pct ≤ threshold)) ||
  (exp_str == "VOLATILE" && decide (threshold < |next_return_pct|))

/-- Modelled from the spec: the per-observation outcome §4.6 prescribes — an
empty expectation is indecisive, otherwise the prediction is correct exactly
when `spec_correct` holds and wrong otherwise. -/
def spec_outcome (exp_str : String) (next_return_pct threshold : ℚ) : PredOutcome :=
  if exp_str = "" then .indecisive
  else if spec_correct exp_str next_return_pct threshold then .correct
  else .wrong

/-- Helper: a `List.lookup` on a key that is not among the keys of the
association list yields `none` (the Python `dict.get` default path). -/
theorem lookup_eq_none_of_not_mem_keys {α β : Type} [BEq α] [LawfulBEq α]
    (l : List (α × β)) (k : α) (h : k ∉ l.map Prod.fst) : l.lookup k = none := by
  induction l with
  | nil => rfl
  | cons x xs ih =>
    simp only [List.map_cons, List.mem_cons, not_or] at h
    simp only [List.lookup, beq_eq_false_iff_ne.mpr h.1]
    exact ih h.2

/-- C1: for all 36 label pairs with tiers in {STRONG, MEDIUM, MILD} and
directions in {BULLISH, BEARISH}, `apply_truth_table` returns exactly the
entry of the spec §4.3 matrix; in particular (STRONG BULLISH, STRONG
BULLISH) maps to STRONG BULLISH and (STRONG BULLISH, STRONG BEARISH) maps
to INDECISIVE; any key outside the 36 valid combinations yields INDECISIVE
rather than an error. -/
theorem C1_truth_table_matches_spec :
    (∀ (t1 : Tier) (d1 : Dir) (t2 : Tier) (d2 : Dir),
      apply_truth_table (tier_str t1) (dir_str d1) (tier_str t2) (dir_str d2) =
        label_str (spec_truth_matrix t1 d1 t2 d2)) ∧
    apply_truth_table "STRONG" "BULLISH" "STRONG" "BULLISH" = "STRONG BULLISH" ∧
    apply_truth_table "STRONG" "BULLISH" "STRONG" "BEARISH" = "INDECISIVE" ∧
    (∀ a b c d : String,
      (a ++ " " ++ b, c ++ " " ++ d) ∉ truth_table.map Prod.fst →
      apply_truth_table a b c d = "INDECISIVE") := by
  refine ⟨?_, rfl, rfl, ?_⟩
  · intro t1 d1 t2 d2
    cases t1 <;> cases d1 <;> cases t2 <;> cases d2 <;> rfl
  · intro a b c d h
    simp only [apply_truth_table]
    rw [lookup_eq_none_of_not_mem_keys _ _ h]
    rfl

/-- Witness for C1: a label pair outside the 36 valid combinations
defaults to INDECISIVE. -/
theorem C1_witness :
    apply_truth_table "NONE" "BULLISH" "STRONG" "BULLISH" = "INDECISIVE" :=
  C1_truth_table_matches_spec.2.2.2 "NONE" "BULLISH" "STRONG" "BULLISH" (by decide)

/-- C10: the OI-by-change compatibility table is symmetric under a global
direction flip: flipping both input directions flips the direction of the
output, with INDECISIVE fixed. -/
theorem C10_truth_table_flip_symmetric :
    ∀ (t1 : Tier) (d1 : Dir) (t2 : Tier) (d2 : Dir),
      apply_truth_table (tier_str t1) (dir_str (flip_dir d1)) (tier_str t2)
          (dir_str (flip_dir d2)) =
        flip_label_str
          (apply_truth_table (tier_str t1) (dir_str d1) (tier_str t2) (dir_str d2)) := by
  intro t1 d1 t2 d2
  cases t1 <;> cases d1 <;> cases t2 <;> cases d2 <;> rfl

/-- Counterexample for C2: in the `unnamed/part_000` copy of
`net_oi_mapping`, the pair (MEDIUM BULLISH, MEDIUM BEARISH) maps to
("VOLATILE", "VOLATILE"), whose tier component is not INDECISIVE — the
claimed anchor (tier INDECISIVE, tag VOLATILE) fails there. -/
theorem C2_counterexample :
    net_compose_respective ("MEDIUM", "BULLISH") ("MEDIUM", "BEARISH") =
      ("VOLATILE", "VOLATILE") ∧
    (net_compose_respective ("MEDIUM", "BULLISH") ("MEDIUM", "BEARISH")).1 ≠
      "INDECISIVE" := by
  exact ⟨rfl, by decide⟩

/-- C2 amended: the anchor values hold exactly for the `net_oi_mapping` of
`fii_strength_calculator_3.py` — (MEDIUM BULLISH, INDECISIVE) maps to
MEDIUM BULLISH; (MEDIUM BULLISH, MEDIUM BEARISH) and (STRONG BULLISH,
STRONG BEARISH) map to tier INDECISIVE with tag VOLATILE; (MEDIUM BEARISH,
MEDIUM BULLISH) maps to tier INDECISIVE with tag NEUTRAL; (MILD BULLISH,
MILD BEARISH) and (INDECISIVE, INDECISIVE) render as plain INDECISIVE; and
every absent pair defaults to INDECISIVE.  In the `unnamed/part_000` copy
the three conflict pairs instead carry tier VOLATILE or NEUTRAL, the other
anchors agree, and absent pairs default to INDECISIVE as well. -/
theorem C2_amended :
    net_compose ("MEDIUM", "BULLISH") ("INDECISIVE", "INDECISIVE") =
      ("MEDIUM", "BULLISH") ∧
    net_compose ("MEDIUM", "BULLISH") ("MEDIUM", "BEARISH") =
      ("INDECISIVE", "VOLATILE") ∧
    net_compose ("STRONG", "BULLISH") ("STRONG", "BEARISH") =
      ("INDECISIVE", "VOLATILE") ∧
    net_compose ("MEDIUM", "BEARISH") ("MEDIUM", "BULLISH") =
      ("INDECISIVE", "NEUTRAL") ∧
    render_net_final (net_compose ("MILD", "BULLISH") ("MILD", "BEARISH")) =
      "INDECISIVE" ∧
    render_net_final
        (net_compose ("INDECISIVE", "INDECISIVE") ("INDECISIVE", "INDECISIVE")) =
      "INDECISIVE" ∧
    (∀ ct pt : String × String,
      (ct, pt) ∉ net_oi_mapping.map Prod.fst →
      net_compose ct pt = ("INDECISIVE", "INDECISIVE")) ∧
    net_compose_respective ("MEDIUM", "BULLISH") ("MEDIUM", "BEARISH") =
      ("VOLATILE", "VOLATILE") ∧
    net_compose_respective ("STRONG", "BULLISH") ("STRONG", "BEARISH") =
      ("VOLATILE", "VOLATILE") ∧
    net_compose_respective ("MEDIUM", "BEARISH") ("MEDIUM", "BULLISH") =
      ("NEUTRAL", "NEUTRAL") ∧
    net_compose_respective ("MEDIUM", "BULLISH") ("INDECISIVE", "INDECISIVE") =
      ("MEDIUM", "BULLISH") ∧
    render_net_final
        (net_compose_respective ("MILD", "BULLISH") ("MILD", "BEARISH")) =
      "INDECISIVE" ∧
    render_net_final
        (net_compose_respective ("INDECISIVE", "INDECISIVE")
          ("INDECISIVE", "INDECISIVE")) =
      "INDECISIVE" ∧
    (∀ ct pt : String × String,
      (ct, pt) ∉ net_oi_mapping_respective.map Prod.fst →
      net_compose_respective ct pt = ("INDECISIVE", "INDECISIVE")) := by
  refine ⟨rfl, rfl, rfl, rfl, rfl, rfl, ?_, rfl, rfl, rfl, rfl, rfl, rfl, ?_⟩
  · intro ct pt h
    unfold net_compose
    rw [lookup_eq_none_of_not_mem_keys _ _ h]
    rfl
  · intro ct pt h
    unfold net_compose_respective
    rw [lookup_eq_none_of_not_mem_keys _ _ h]
    rfl

/-- Witness for C2's amended theorem: (INDECISIVE, INDECISIVE) is absent
from the `fii_strength_calculator_3.py` table, so the lookup defaults to
INDECISIVE. -/
theorem C2_amended_witness :
    net_compose ("INDECISIVE", "INDECISIVE") ("INDECISIVE", "INDECISIVE") =
      ("INDECISIVE", "INDECISIVE") :=
  C2_amended.2.2.2.2.2.2.1 ("INDECISIVE", "INDECISIVE") ("INDECISIVE", "INDECISIVE")
    (by decide)

/-- Helper: `pyGet` on the empty list is always an `IndexError`. -/
theorem pyGet_nil (i : ℤ) : pyGet [] i = none := by
  unfold pyGet
  split
  · rfl
  · split <;> rfl

/-- Helper: `pyGet` at a valid non-negative index returns the element. -/
theorem pyGet_of_nonneg_lt (l : List ℚ) (i : ℤ) (h0 : 0 ≤ i)
    (h1 : i < (l.length : ℤ)) : pyGet l i = some (l.getD i.toNat 0) := by
  have hlt : i.toNat < l.length := by omega
  rw [pyGet, if_pos h0, List.get?_eq_get hlt, List.getD_eq_getElem _ _ hlt]
  rfl

/-- Counterexample for C6: the guarded `get_threshold` of
`fii_strength_calculator_3.py` returns the numeric value 0 for an empty
sample instead of failing. -/
theorem C6_counterexample : get_threshold_guarded 50 [] = some 0 := rfl

/-- C6 amended: on an empty sample the unguarded `get_threshold`
(`custom_percentile_method_2.py`) fails (an `IndexError`, modelled as
`none`) for every percentile, while the guarded variant
(`fii_strength_calculator_3.py` / `unnamed/part_000`) returns the numeric
value 0 instead of failing; neither raises a dedicated InsufficientData
error. -/
theorem C6_amended (p : ℚ) :
    get_threshold p [] = none ∧ get_threshold_guarded p [] = some 0 := by
  constructor
  · simp only [get_threshold]
    split
    · exact pyGet_nil _
    · rw [pyGet_nil]
      rfl
  · rfl

/-- C8: the tier classifier returns STRONG when `|value| ≥ p80`, MEDIUM
when `pLower ≤ |value| < p80`, MILD otherwise, and its result does not
depend on the `is_change` flag. -/
theorem C8_tier_classifier (value percentile_80 percentile_40_20 : ℚ)
    (is_change : Bool) :
    (percentile_80 ≤ |value| →
      get_strength_level value percentile_80 percentile_40_20 is_change = "STRONG") ∧
    (percentile_40_20 ≤ |value| → |value| < percentile_80 →
      get_strength_level value percentile_80 percentile_40_20 is_change = "MEDIUM") ∧
    (|value| < percentile_80 → |value| < percentile_40_20 →
      get_strength_level value percentile_80 percentile_40_20 is_change = "MILD") ∧
    (∀ b : Bool,
      get_strength_level value percentile_80 percentile_40_20 is_change =
        get_strength_level value percentile_80 percentile_40_20 b) := by
  have core : ∀ b : Bool,
      get_strength_level value percentile_80 percentile_40_20 b =
        (if percentile_80 ≤ |value| then "STRONG"
         else if percentile_40_20 ≤ |value| then "MEDIUM"
         else "MILD") := by
    intro b
    cases b <;> rfl
  refine ⟨?_, ?_, ?_, ?_⟩
  · intro h
    rw [core, if_pos h]
  · intro h1 h2
    rw [core, if_neg (not_le.mpr h2), if_pos h1]
  · intro h1 h2
    rw [core, if_neg (not_le.mpr h1), if_neg (not_le.mpr h2)]
  · intro b
    rw [core, core]

/-- Witness for C8: value 5 against thresholds p80 = 10 and pLower = 3 is
MEDIUM. -/
theorem C8_witness : get_strength_level 5 10 3 true = "MEDIUM" :=
  (C8_tier_classifier 5 10 3 true).2.1
    (by rw [show |(5 : ℚ)| = 5 from abs_of_pos (by norm_num)]; norm_num)
    (by rw [show |(5 : ℚ)| = 5 from abs_of_pos (by norm_num)]; norm_num)

/-- C9: the direction classifier on the Put Options segment is the negation
of its result on the Call Options segment; puts map positive values to
BEARISH and everything else to BULLISH, calls and index futures map
positive values to BULLISH and everything else to BEARISH, and zero takes
the not-greater-than-zero branch.  Both source variants are covered. -/
theorem C9_put_negates_call (v : ℚ) :
    (get_direction v "Put Options" =
      negate_direction (get_direction v "Call Options")) ∧
    (0 < v → get_direction v "Put Options" = "BEARISH") ∧
    (¬ 0 < v → get_direction v "Put Options" = "BULLISH") ∧
    (0 < v → get_direction v "Call Options" = "BULLISH" ∧
      get_direction v "FUTURE_INDEX" = "BULLISH") ∧
    (¬ 0 < v → get_direction v "Call Options" = "BEARISH" ∧
      get_direction v "FUTURE_INDEX" = "BEARISH") ∧
    (get_direction 0 "Put Options" = "BULLISH" ∧
      get_direction 0 "Call Options" = "BEARISH") ∧
    (get_direction_respective v "Put Options" =
      negate_direction (get_direction_respective v "Call Options")) ∧
    (0 < v → get_direction_respective v "Put Options" = "BEARISH") ∧
    (¬ 0 < v → get_direction_respective v "Put Options" = "BULLISH") := by
  have hput : get_direction v "Put Options" =
      if 0 < v then "BEARISH" else "BULLISH" := by
    unfold get_direction
    rw [if_neg (by decide), if_neg (by decide), if_pos (by decide)]
  have hcall : get_direction v "Call Options" =
      if 0 < v then "BULLISH" else "BEARISH" := by
    unfold get_direction
    rw [if_neg (by decide), if_pos (by decide)]
  have hfut : get_direction v "FUTURE_INDEX" =
      if 0 < v then "BULLISH" else "BEARISH" := by
    unfold get_direction
    rw [if_pos (by decide)]
  have hputr : get_direction_respective v "Put Options" =
      if 0 < v then "BEARISH" else "BULLISH" := by
    unfold get_direction_respective
    rw [if_pos (by decide)]
  have hcallr : get_direction_respective v "Call Options" =
      if 0 < v then "BULLISH" else "BEARISH" := by
    unfold get_direction_respective
    rw [if_neg (by decide)]
  have hzero : ¬ (0 : ℚ) < 0 := lt_irrefl 0
  have hput0 : get_direction 0 "Put Options" = "BULLISH" := by
    unfold get_direction
    rw [if_neg (by decide), if_neg (by decide), if_pos (by decide), if_neg hzero]
  have hcall0 : get_direction 0 "Call Options" = "BEARISH" := by
    unfold get_direction
    rw [if_neg (by decide), if_pos (by decide), if_neg hzero]
  by_cases hv : 0 < v
  · refine ⟨?_, fun _ => ?_, fun h => absurd hv h, fun _ => ⟨?_, ?_⟩,
      fun h => absurd hv h, ⟨hput0, hcall0⟩, ?_, fun _ => ?_,
      fun h => absurd hv h⟩ <;>
      simp [hput, hcall, hfut, hputr, hcallr, if_pos hv, negate_direction]
  · refine ⟨?_, fun h => absurd h hv, fun _ => ?_, fun h => absurd h hv,
      fun _ => ⟨?_, ?_⟩, ⟨hput0, hcall0⟩, ?_, fun h => absurd h hv,
      fun _ => ?_⟩ <;>
      simp [hput, hcall, hfut, hputr, hcallr, if_neg hv, negate_direction]

/-- Witness for C9: at value 1 the Put Options direction is BEARISH. -/
theorem C9_witness : get_direction 1 "Put Options" = "BEARISH" :=
  (C9_put_negates_call 1).2.1 (by norm_num)

/-- Counterexample for C4: with three trading dates 3 > 2 > 1 and the
default 60-day lookback, the backtest of `calculate_accuracy_summary`
scores date 1 while its (fixed) threshold sample window contains date 3,
which lies after it — the claimed at-or-before property fails. -/
theorem C4_counterexample :
    1 ∈ acc_analysis_dates [3, 2, 1] 60 ∧ 3 ∈ acc_hist_dates [3, 2, 1] 60 ∧
      1 < 3 := by
  decide

/-- C4 amended: the per-date rolling selection of
`calculate_strength_for_date` (`custom_percentile_method_2.py`) does have
the no-look-ahead property — every selected date is at-or-before the target
— but the backtest `calculate_accuracy_summary` (`unnamed/part_000`)
instead computes one fixed window from the most recent `lookback_days`
dates and reuses it for every scored date, so whenever the date list is
strictly descending and the lookback is positive, every scored date's
sample contains a strictly later date. -/
theorem C4_amended :
    (∀ (df_dates : List ℕ) (target_date lookback_days : ℕ),
      ∀ x ∈ rolling_lookback_dates df_dates target_date lookback_days,
        x ≤ target_date) ∧
    (∀ (all_dates : List ℕ) (lookback_days : ℕ),
      all_dates.Sorted (· > ·) → 1 ≤ lookback_days →
      ∀ d ∈ acc_analysis_dates all_dates lookback_days,
        ∃ x ∈ acc_hist_dates all_dates lookback_days, d < x) := by
  constructor
  · intro df_dates target_date lookback_days x hx
    have hmem : x ∈ ((df_dates.filter (fun d => d ≤ target_date)).dedup).insertionSort
        (· ≥ ·) := by
      unfold rolling_lookback_dates at hx
      dsimp only at hx
      split at hx
      · exact List.take_subset _ _ hx
      · exact hx
    rw [List.mem_insertionSort, List.mem_dedup] at hmem
    simpa using (List.of_mem_filter hmem)
  · intro all_dates lookback_days hsort hlb d hd
    cases all_dates with
    | nil => simp [acc_analysis_dates] at hd
    | cons a rest =>
      have hd' : d ∈ rest := by
        unfold acc_analysis_dates at hd
        exact List.take_subset _ _ (by simpa using hd)
      refine ⟨a, ?_, ?_⟩
      · unfold acc_hist_dates
        obtain ⟨k, rfl⟩ : ∃ k, lookback_days = k + 1 := ⟨lookback_days - 1, by omega⟩
        simp [List.take_cons]
      · exact (List.sorted_cons.mp hsort).1 d hd'

/-- Witness for C4's amended theorem: the rolling window for target date 2
contains only dates at-or-before 2, while the fixed backtest window over
dates [3, 2, 1] contains a date later than the scored date 1. -/
theorem C4_amended_witness :
    2 ≤ 2 ∧ ∃ x ∈ acc_hist_dates [3, 2, 1] 60, 1 < x :=
  ⟨C4_amended.1 [3, 2, 1] 2 60 2 (by decide),
   C4_amended.2 [3, 2, 1] 60 (by decide) (by decide) 1 (by decide)⟩

/-- Helper: `pyGet` at index -1 of a non-empty list returns the last
element (Python's negative indexing). -/
theorem pyGet_neg_one (l : List ℚ) (hne : l ≠ []) :
    pyGet l (-1) = some (l.getD (l.length - 1) 0) := by
  have hn : 1 ≤ l.length := List.length_pos.mpr hne
  have hc : (0 : ℤ) ≤ -1 + l.length := by omega
  rw [pyGet, if_neg (by norm_num), if_pos hc]
  have ht : ((-1 : ℤ) + l.length).toNat = l.length - 1 := by omega
  rw [ht, List.get?_eq_get (by omega), List.getD_eq_getElem _ _ (by omega)]
  rfl

/-- Helper: position bounds for `(p/100)*(n-1)` when `0 ≤ p ≤ 100` and
`n ≥ 1`. -/
theorem t_pos_bounds (p : ℚ) (n : ℕ) (h0 : 0 ≤ p) (h1 : p ≤ 100) (hn : 1 ≤ n) :
    0 ≤ p / 100 * ((n : ℚ) - 1) ∧ p / 100 * ((n : ℚ) - 1) ≤ (n : ℚ) - 1 := by
  have hn1 : (0 : ℚ) ≤ (n : ℚ) - 1 := by
    have h : (1 : ℚ) ≤ (n : ℚ) := by exact_mod_cast hn
    linarith
  have hp : 0 ≤ p / 100 := div_nonneg h0 (by norm_num)
  have hp1 : p / 100 ≤ 1 := by
    rw [div_le_one (by norm_num)]
    linarith
  exact ⟨mul_nonneg hp hn1, by nlinarith⟩

/-- Helper: floor bounds for the interpolation position. -/
theorem floor_t_pos_bounds (p : ℚ) (n : ℕ) (h0 : 0 ≤ p) (h1 : p ≤ 100)
    (hn : 1 ≤ n) :
    0 ≤ ⌊p / 100 * ((n : ℚ) - 1)⌋ ∧ ⌊p / 100 * ((n : ℚ) - 1)⌋ ≤ (n : ℤ) - 1 := by
  obtain ⟨ha, hb⟩ := t_pos_bounds p n h0 h1 hn
  refine ⟨Int.floor_nonneg.mpr ha, ?_⟩
  calc ⌊p / 100 * ((n : ℚ) - 1)⌋ ≤ ⌊(n : ℚ) - 1⌋ := Int.floor_mono hb
  _ = (n : ℤ) - 1 := by
      rw [show ((n : ℚ) - 1) = (((n : ℤ) - 1 : ℤ) : ℚ) by push_cast; ring,
        Int.floor_intCast]

/-- Helper: when the fractional part of `x` is non-zero and `x ≤ n - 1`,
the floor of `x` is strictly below `n - 1`. -/
theorem floor_lt_of_frac_ne (n : ℕ) (x : ℚ) (hx1 : x ≤ (n : ℚ) - 1)
    (hf : x - ⌊x⌋ ≠ 0) : ⌊x⌋ < (n : ℤ) - 1 := by
  have hlt : (⌊x⌋ : ℚ) < x :=
    lt_of_le_of_ne (Int.floor_le x) (by intro h; exact hf (by linarith))
  by_contra hcon
  push_neg at hcon
  have h2 : ((n : ℚ) - 1) ≤ (⌊x⌋ : ℚ) := by
    have hq : (((n : ℤ) - 1 : ℤ) : ℚ) ≤ ((⌊x⌋ : ℤ) : ℚ) := by exact_mod_cast hcon
    push_cast at hq
    linarith
  linarith

/-- Helper: evaluation of the unguarded `get_threshold` — for percentiles
in `[0, 100]` on a non-empty sample it returns `interp` at the
interpolation position. -/
theorem get_threshold_eq_interp (p : ℚ) (l : List ℚ) (hne : l ≠ [])
    (h0 : 0 ≤ p) (h1 : p ≤ 100) :
    get_threshold p l = some (interp l (p / 100 * ((l.length : ℚ) - 1))) := by
  have hn : 1 ≤ l.length := List.length_pos.mpr hne
  obtain ⟨hx0, hx1⟩ := t_pos_bounds p l.length h0 h1 hn
  obtain ⟨hf0, hf1⟩ := floor_t_pos_bounds p l.length h0 h1 hn
  simp only [get_threshold]
  set x : ℚ := p / 100 * ((l.length : ℚ) - 1) with hxdef
  by_cases hf : x - ⌊x⌋ = 0
  · rw [if_pos hf, pyGet_of_nonneg_lt l ⌊x⌋ hf0 (by omega)]
    unfold interp
    rw [hf, zero_mul, add_zero]
  · have hfl : ⌊x⌋ < (l.length : ℤ) - 1 := floor_lt_of_frac_ne l.length x hx1 hf
    rw [if_neg hf, pyGet_of_nonneg_lt l ⌊x⌋ hf0 (by omega),
      pyGet_of_nonneg_lt l (⌊x⌋ + 1) (by omega) (by omega)]
    have htn : (⌊x⌋ + 1).toNat = (⌊x⌋).toNat + 1 := by omega
    unfold interp
    rw [htn]
    rfl

/-- Helper: evaluation of the guarded `get_threshold` — same value as the
unguarded variant on the `[0, 100]` percentile range. -/
theorem get_threshold_guarded_eq_interp (p : ℚ) (l : List ℚ) (hne : l ≠ [])
    (h0 : 0 ≤ p) (h1 : p ≤ 100) :
    get_threshold_guarded p l = some (interp l (p / 100 * ((l.length : ℚ) - 1))) := by
  have hn : 1 ≤ l.length := List.length_pos.mpr hne
  obtain ⟨hx0, hx1⟩ := t_pos_bounds p l.length h0 h1 hn
  obtain ⟨hf0, hf1⟩ := floor_t_pos_bounds p l.length h0 h1 hn
  rcases eq_or_lt_of_le hn with h1len | h2len
  · have hx : p / 100 * ((l.length : ℚ) - 1) = 0 := by
      rw [← h1len]
      norm_num
    have hiE : ¬ l.isEmpty = true := by
      simp [List.isEmpty_iff, hne]
    simp only [get_threshold_guarded]
    rw [if_pos (by omega), if_neg hiE,
      pyGet_of_nonneg_lt l 0 le_rfl (by omega), hx]
    unfold interp
    norm_num
  · simp only [get_threshold_guarded]
    rw [if_neg (by omega)]
    set x : ℚ := p / 100 * ((l.length : ℚ) - 1) with hxdef
    by_cases hclamp : (l.length : ℤ) - 1 ≤ ⌊x⌋
    · have hfeq : ⌊x⌋ = (l.length : ℤ) - 1 := le_antisymm hf1 hclamp
      have hxeq : x - ⌊x⌋ = 0 := by
        have hle : (⌊x⌋ : ℚ) ≤ x := Int.floor_le x
        have hge : x ≤ (⌊x⌋ : ℚ) := by
          rw [hfeq]
          push_cast
          linarith
        linarith
      rw [if_pos hclamp, pyGet_neg_one l hne]
      have htn : (⌊x⌋).toNat = l.length - 1 := by omega
      unfold interp
      rw [hxeq, zero_mul, add_zero, htn]
    · rw [if_neg hclamp]
      have hrest : (if x - ⌊x⌋ = 0 then pyGet l ⌊x⌋
          else do
            let a ← pyGet l ⌊x⌋
            let b ← pyGet l (⌊x⌋ + 1)
            pure (a + (x - ⌊x⌋) * (b - a))) = get_threshold p l := by
        simp only [get_threshold]
      rw [hrest]
      exact get_threshold_eq_interp p l hne h0 h1

/-- Helper: on a sorted list, `getD` with default 0 is monotone over valid
indices. -/
theorem getD_mono_of_sorted (l : List ℚ) (hs : l.Sorted (· ≤ ·)) (a b : ℕ)
    (hab : a ≤ b) (hb : b < l.length) : l.getD a 0 ≤ l.getD b 0 := by
  have ha : a < l.length := by omega
  rw [List.getD_eq_getElem _ _ ha, List.getD_eq_getElem _ _ hb]
  exact hs.rel_get_of_le (Fin.mk_le_mk.mpr hab)

/-- Helper: the interpolated value is at least the sample value at the
floor index. -/
theorem getD_le_interp (l : List ℚ) (hs : l.Sorted (· ≤ ·)) (x : ℚ)
    (hx0 : 0 ≤ x) (hx1 : x ≤ (l.length : ℚ) - 1) :
    l.getD (⌊x⌋).toNat 0 ≤ interp l x := by
  unfold interp
  have hfr : 0 ≤ x - ⌊x⌋ := by linarith [Int.floor_le x]
  by_cases hf : x - ⌊x⌋ = 0
  · rw [hf, zero_mul, add_zero]
  · have hfl : ⌊x⌋ < (l.length : ℤ) - 1 := floor_lt_of_frac_ne l.length x hx1 hf
    have hfx0 : 0 ≤ ⌊x⌋ := Int.floor_nonneg.mpr hx0
    have hD : l.getD (⌊x⌋).toNat 0 ≤ l.getD ((⌊x⌋).toNat + 1) 0 :=
      getD_mono_of_sorted l hs _ _ (by omega) (by omega)
    nlinarith [mul_nonneg hfr (sub_nonneg.mpr hD)]

/-- Helper: the interpolated value is at most the sample value at the next
index, when that index is valid. -/
theorem interp_le_getD_succ (l : List ℚ) (hs : l.Sorted (· ≤ ·)) (x : ℚ)
    (hnext : (⌊x⌋).toNat + 1 < l.length) :
    interp l x ≤ l.getD ((⌊x⌋).toNat + 1) 0 := by
  unfold interp
  have hf0 : 0 ≤ x - ⌊x⌋ := by linarith [Int.floor_le x]
  have hf1 : x - ⌊x⌋ ≤ 1 := by linarith [Int.lt_floor_add_one x]
  have hD : l.getD (⌊x⌋).toNat 0 ≤ l.getD ((⌊x⌋).toNat + 1) 0 :=
    getD_mono_of_sorted l hs _ _ (by omega) hnext
  nlinarith [mul_nonneg (by linarith : (0 : ℚ) ≤ 1 - (x - ⌊x⌋))
    (sub_nonneg.mpr hD)]

/-- Helper: `interp` is monotone in the position over a sorted sample. -/
theorem interp_mono (l : List ℚ) (hs : l.Sorted (· ≤ ·)) (x y : ℚ)
    (hx0 : 0 ≤ x) (hxy : x ≤ y) (hy1 : y ≤ (l.length : ℚ) - 1) :
    interp l x ≤ interp l y := by
  have hy0 : 0 ≤ y := le_trans hx0 hxy
  have hx1 : x ≤ (l.length : ℚ) - 1 := le_trans hxy hy1
  have hn : 1 ≤ l.length := by
    rcases Nat.eq_zero_or_pos l.length with h | h
    · rw [h] at hy1
      norm_num at hy1
      linarith
    · exact h
  have hfx0 : 0 ≤ ⌊x⌋ := Int.floor_nonneg.mpr hx0
  have hfxy : ⌊x⌋ ≤ ⌊y⌋ := Int.floor_mono hxy
  have hfy1 : ⌊y⌋ ≤ (l.length : ℤ) - 1 := by
    calc ⌊y⌋ ≤ ⌊(l.length : ℚ) - 1⌋ := Int.floor_mono hy1
    _ = (l.length : ℤ) - 1 := by
        rw [show ((l.length : ℚ) - 1) = (((l.length : ℤ) - 1 : ℤ) : ℚ) by
          push_cast; ring, Int.floor_intCast]
  rcases eq_or_lt_of_le hfxy with heq | hlt
  · unfold interp
    rw [← heq]
    by_cases hnext : (⌊x⌋).toNat + 1 < l.length
    · have hD : l.getD (⌊x⌋).toNat 0 ≤ l.getD ((⌊x⌋).toNat + 1) 0 :=
        getD_mono_of_sorted l hs _ _ (by omega) hnext
      have hm := mul_le_mul_of_nonneg_right
        (by linarith : x - (⌊x⌋ : ℚ) ≤ y - (⌊x⌋ : ℚ)) (sub_nonneg.mpr hD)
      linarith
    · have hfeq : ⌊x⌋ = (l.length : ℤ) - 1 := by omega
      have hxeqy : x = y := by
        have hge : ((l.length : ℚ) - 1) ≤ x := by
          have hfl := Int.floor_le x
          rw [hfeq] at hfl
          push_cast at hfl
          linarith
        linarith
      rw [hxeqy]
  · have hstep1 : interp l x ≤ l.getD ((⌊x⌋).toNat + 1) 0 :=
      interp_le_getD_succ l hs x (by omega)
    have hstep2 : l.getD ((⌊x⌋).toNat + 1) 0 ≤ l.getD ((⌊y⌋).toNat) 0 :=
      getD_mono_of_sorted l hs _ _ (by omega) (by omega)
    have hstep3 : l.getD ((⌊y⌋).toNat) 0 ≤ interp l y :=
      getD_le_interp l hs y hy0 hy1
    linarith

/-- Helper: `get_threshold` is monotone in the percentile on a sorted
non-empty sample. -/
theorem get_threshold_mono (l : List ℚ) (hs : l.Sorted (· ≤ ·)) (hne : l ≠ [])
    (p1 p2 : ℚ) (h0 : 0 ≤ p1) (h12 : p1 ≤ p2) (h2 : p2 ≤ 100)
    (v1 v2 : ℚ) (e1 : get_threshold p1 l = some v1)
    (e2 : get_threshold p2 l = some v2) : v1 ≤ v2 := by
  have hn : 1 ≤ l.length := List.length_pos.mpr hne
  have h20 : 0 ≤ p2 := le_trans h0 h12
  have h1100 : p1 ≤ 100 := le_trans h12 h2
  rw [get_threshold_eq_interp p1 l hne h0 h1100] at e1
  rw [get_threshold_eq_interp p2 l hne h20 h2] at e2
  have hv1 : v1 = interp l (p1 / 100 * ((l.length : ℚ) - 1)) :=
    (Option.some.inj e1).symm
  have hv2 : v2 = interp l (p2 / 100 * ((l.length : ℚ) - 1)) :=
    (Option.some.inj e2).symm
  obtain ⟨ha1, _⟩ := t_pos_bounds p1 l.length h0 h1100 hn
  obtain ⟨_, hb2⟩ := t_pos_bounds p2 l.length h20 h2 hn
  have hn1 : (0 : ℚ) ≤ (l.length : ℚ) - 1 := by
    have h : (1 : ℚ) ≤ (l.length : ℚ) := by exact_mod_cast hn
    linarith
  have hxy : p1 / 100 * ((l.length : ℚ) - 1) ≤ p2 / 100 * ((l.length : ℚ) - 1) := by
    have hdiv : p1 / 100 ≤ p2 / 100 := (div_le_div_iff_of_pos_right (by norm_num)).mpr h12
    exact mul_le_mul_of_nonneg_right hdiv hn1
  rw [hv1, hv2]
  exact interp_mono l hs _ _ ha1 hxy hb2

/-- C5: for every sorted-ascending sample and percentile p in [0, 100]: a
one-element sample returns its element for every p; for n ≥ 2, with
position x = (p/100)(n-1), integer part i and fractional part f, the
estimator returns sample[i] when f = 0 and
sample[i] + f·(sample[i+1] - sample[i]) otherwise, with i+1 never exceeding
n-1.  Both source variants of `get_threshold` agree. -/
theorem C5_percentile_formula (p : ℚ) (l : List ℚ) (hs : l.Sorted (· ≤ ·))
    (h0 : 0 ≤ p) (h1 : p ≤ 100) :
    (l.length = 1 →
      get_threshold p l = some (l.getD 0 0) ∧
      get_threshold_guarded p l = some (l.getD 0 0)) ∧
    (2 ≤ l.length →
      (p / 100 * ((l.length : ℚ) - 1) - ⌊p / 100 * ((l.length : ℚ) - 1)⌋ = 0 →
        get_threshold p l =
          some (l.getD (⌊p / 100 * ((l.length : ℚ) - 1)⌋).toNat 0) ∧
        get_threshold_guarded p l =
          some (l.getD (⌊p / 100 * ((l.length : ℚ) - 1)⌋).toNat 0)) ∧
      (p / 100 * ((l.length : ℚ) - 1) - ⌊p / 100 * ((l.length : ℚ) - 1)⌋ ≠ 0 →
        get_threshold p l =
          some (l.getD (⌊p / 100 * ((l.length : ℚ) - 1)⌋).toNat 0 +
            (p / 100 * ((l.length : ℚ) - 1) -
              ⌊p / 100 * ((l.length : ℚ) - 1)⌋) *
            (l.getD ((⌊p / 100 * ((l.length : ℚ) - 1)⌋).toNat + 1) 0 -
              l.getD (⌊p / 100 * ((l.length : ℚ) - 1)⌋).toNat 0)) ∧
        get_threshold_guarded p l =
          some (l.getD (⌊p / 100 * ((l.length : ℚ) - 1)⌋).toNat 0 +
            (p / 100 * ((l.length : ℚ) - 1) -
              ⌊p / 100 * ((l.length : ℚ) - 1)⌋) *
            (l.getD ((⌊p / 100 * ((l.length : ℚ) - 1)⌋).toNat + 1) 0 -
              l.getD (⌊p / 100 * ((l.length : ℚ) - 1)⌋).toNat 0)) ∧
        (⌊p / 100 * ((l.length : ℚ) - 1)⌋).toNat + 1 ≤ l.length - 1)) := by
  constructor
  · intro hlen
    have hne : l ≠ [] := by
      intro h
      rw [h] at hlen
      simp at hlen
    have hx : p / 100 * ((l.length : ℚ) - 1) = 0 := by
      rw [hlen]
      norm_num
    have hinterp : interp l 0 = l.getD 0 0 := by
      unfold interp
      norm_num
    rw [get_threshold_eq_interp p l hne h0 h1,
      get_threshold_guarded_eq_interp p l hne h0 h1, hx, hinterp]
    exact ⟨rfl, rfl⟩
  · intro hlen
    have hne : l ≠ [] := by
      intro h
      rw [h] at hlen
      simp at hlen
    have hn : 1 ≤ l.length := by omega
    obtain ⟨hx0, hx1⟩ := t_pos_bounds p l.length h0 h1 hn
    obtain ⟨hf0, hf1⟩ := floor_t_pos_bounds p l.length h0 h1 hn
    constructor
    · intro hf
      rw [get_threshold_eq_interp p l hne h0 h1,
        get_threshold_guarded_eq_interp p l hne h0 h1]
      unfold interp
      rw [hf, zero_mul, add_zero]
      exact ⟨rfl, rfl⟩
    · intro hf
      have hfl : ⌊p / 100 * ((l.length : ℚ) - 1)⌋ < (l.length : ℤ) - 1 :=
        floor_lt_of_frac_ne l.length _ hx1 hf
      refine ⟨?_, ?_, by omega⟩
      · rw [get_threshold_eq_interp p l hne h0 h1]
        unfold interp
        rfl
      · rw [get_threshold_guarded_eq_interp p l hne h0 h1]
        unfold interp
        rfl

/-- Witness for C5: percentile 50 over the sorted sample [1, 2] lands at
position 1/2 and interpolates to 3/2. -/
theorem C5_witness : get_threshold 50 [(1 : ℚ), 2] = some (3 / 2) := by
  have hs2 : ([(1 : ℚ), 2]).Sorted (· ≤ ·) := by
    simp [List.sorted_cons]
  have hx : (50 : ℚ) / 100 * ((([(1 : ℚ), 2]).length : ℚ) - 1) = 1 / 2 := by
    norm_num
  have hfl : ⌊(1 / 2 : ℚ)⌋ = 0 := by
    rw [Int.floor_eq_zero_iff]
    norm_num [Set.mem_Ico]
  have hf : (50 : ℚ) / 100 * ((([(1 : ℚ), 2]).length : ℚ) - 1) -
      ⌊(50 : ℚ) / 100 * ((([(1 : ℚ), 2]).length : ℚ) - 1)⌋ ≠ 0 := by
    rw [hx, hfl]
    norm_num
  have h := ((C5_percentile_formula 50 [(1 : ℚ), 2] hs2 (by norm_num)
    (by norm_num)).2 (by norm_num)).2 hf
  rw [h.1, hx, hfl]
  norm_num

/-- C7: on a sorted-ascending non-empty sample, `get_threshold` is monotone
in the percentile for 0 ≤ p1 ≤ p2 ≤ 100; consequently p40 ≤ p80 and
p20 ≤ p80 for every ThresholdSet computed from one sorted sample. -/
theorem C7_threshold_monotone (l : List ℚ) (hs : l.Sorted (· ≤ ·)) (hne : l ≠ [])
    (p1 p2 : ℚ) (h0 : 0 ≤ p1) (h12 : p1 ≤ p2) (h2 : p2 ≤ 100) :
    (∀ v1 v2 : ℚ, get_threshold p1 l = some v1 → get_threshold p2 l = some v2 →
      v1 ≤ v2) ∧
    (∀ a b : ℚ, get_threshold 40 l = some a → get_threshold 80 l = some b →
      a ≤ b) ∧
    (∀ a b : ℚ, get_threshold 20 l = some a → get_threshold 80 l = some b →
      a ≤ b) :=
  ⟨fun v1 v2 e1 e2 => get_threshold_mono l hs hne p1 p2 h0 h12 h2 v1 v2 e1 e2,
   fun a b ea eb =>
     get_threshold_mono l hs hne 40 80 (by norm_num) (by norm_num) (by norm_num)
       a b ea eb,
   fun a b ea eb =>
     get_threshold_mono l hs hne 20 80 (by norm_num) (by norm_num) (by norm_num)
       a b ea eb⟩

/-- Witness for C7: over the sorted sample [1, 2], percentile 20 gives 6/5
and percentile 80 gives 9/5, and monotonicity orders them. -/
theorem C7_witness : (6 / 5 : ℚ) ≤ 9 / 5 := by
  have hs2 : ([(1 : ℚ), 2]).Sorted (· ≤ ·) := by
    simp [List.sorted_cons]
  have hfl1 : ⌊(1 / 5 : ℚ)⌋ = 0 := by
    rw [Int.floor_eq_zero_iff]
    norm_num [Set.mem_Ico]
  have hfl4 : ⌊(4 / 5 : ℚ)⌋ = 0 := by
    rw [Int.floor_eq_zero_iff]
    norm_num [Set.mem_Ico]
  have he1 : get_threshold 20 [(1 : ℚ), 2] = some (6 / 5) := by
    rw [get_threshold_eq_interp 20 [(1 : ℚ), 2] (by simp) (by norm_num)
      (by norm_num)]
    have hx : (20 : ℚ) / 100 * ((([(1 : ℚ), 2]).length : ℚ) - 1) = 1 / 5 := by
      norm_num
    rw [hx]
    unfold interp
    rw [hfl1]
    norm_num
  have he2 : get_threshold 80 [(1 : ℚ), 2] = some (9 / 5) := by
    rw [get_threshold_eq_interp 80 [(1 : ℚ), 2] (by simp) (by norm_num)
      (by norm_num)]
    have hx : (80 : ℚ) / 100 * ((([(1 : ℚ), 2]).length : ℚ) - 1) = 4 / 5 := by
      norm_num
    rw [hx]
    unfold interp
    rw [hfl4]
    norm_num
  exact (C7_threshold_monotone [(1 : ℚ), 2] hs2 (by simp) 20 80 (by norm_num)
    (by norm_num) (by norm_num)).1 (6 / 5) (9 / 5) he1 he2

/-- Helper: on every expectation string that occurs in the backtest's
table, the code's scoring step agrees with the outcome prescribed by the
spec (empty ⇒ indecisive, otherwise correct exactly under the listed
condition and wrong otherwise). -/
theorem evaluate_eq_spec_outcome (e : String) (pct t : ℚ)
    (he : e ∈ expectation_strings) :
    evaluate_prediction e pct t = spec_outcome e pct t := by
  simp only [expectation_strings, List.mem_cons, List.not_mem_nil, or_false] at he
  rcases he with rfl | rfl | rfl | rfl | rfl | rfl | rfl | rfl <;>
    simp [evaluate_prediction, spec_outcome, spec_correct]

/-- Helper: the backtest tallies equal the spec-side counts of correct,
wrong and indecisive observations. -/
theorem tally_eq_spec_counts (obs : List (String × ℚ)) (t : ℚ)
    (hobs : ∀ o ∈ obs, o.1 ∈ expectation_strings) :
    tally obs t =
      (obs.countP (fun o => spec_outcome o.1 o.2 t == .correct),
       obs.countP (fun o => spec_outcome o.1 o.2 t == .wrong),
       obs.countP (fun o => spec_outcome o.1 o.2 t == .indecisive)) := by
  induction obs with
  | nil => rfl
  | cons ob rest ih =>
    have hhd := evaluate_eq_spec_outcome ob.1 ob.2 t (hobs ob (List.mem_cons_self _ _))
    have htl := ih (fun o ho => hobs o (List.mem_cons_of_mem _ ho))
    simp only [tally, htl, hhd, List.countP_cons]
    rcases h : spec_outcome ob.1 ob.2 t with _ | _ | _ <;> simp [h]

/-- C3: for each scored observation, an empty expectation string is counted
indecisive and nothing further is evaluated; on the expectation strings of
the table the outcome is correct exactly under the claimed per-string
condition (UP ⇒ return > 0, DOWN ⇒ return < 0, FLAT/NEUTRAL ⇒ |return| ≤ t,
FLAT OR UP ⇒ return ≥ -t, FLAT OR DOWN ⇒ return ≤ t, VOLATILE ⇒
|return| > t) and wrong otherwise; and the reported percentage equals
correct/(correct+wrong)·100, with 0 when the denominator is 0. -/
theorem C3_backtest_scoring (obs : List (String × ℚ)) (t : ℚ)
    (hobs : ∀ o ∈ obs, o.1 ∈ expectation_strings) :
    (∀ pct : ℚ, evaluate_prediction "" pct t = .indecisive) ∧
    (∀ (e : String) (pct : ℚ), e ∈ expectation_strings →
      evaluate_prediction e pct t = spec_outcome e pct t) ∧
    tally obs t =
      (obs.countP (fun o => spec_outcome o.1 o.2 t == .correct),
       obs.countP (fun o => spec_outcome o.1 o.2 t == .wrong),
       obs.countP (fun o => spec_outcome o.1 o.2 t == .indecisive)) ∧
    report_percent obs t =
      (if obs.countP (fun o => spec_outcome o.1 o.2 t == .correct) +
          obs.countP (fun o => spec_outcome o.1 o.2 t == .wrong) = 0 then 0
       else
         (obs.countP (fun o => spec_outcome o.1 o.2 t == .correct) : ℚ) /
           ((obs.countP (fun o => spec_outcome o.1 o.2 t == .correct) : ℚ) +
            (obs.countP (fun o => spec_outcome o.1 o.2 t == .wrong) : ℚ)) *
           100) := by
  have htally := tally_eq_spec_counts obs t hobs
  refine ⟨fun pct => rfl, fun e pct he => evaluate_eq_spec_outcome e pct t he,
    htally, ?_⟩
  unfold report_percent
  rw [htally]
  dsimp only
  by_cases hz : obs.countP (fun o => spec_outcome o.1 o.2 t == .correct) +
      obs.countP (fun o => spec_outcome o.1 o.2 t == .wrong) = 0
  · rw [if_neg (by omega), if_pos hz]
  · rw [if_pos (by omega), if_neg hz]

/-- Witness for C3: the spec §8 accuracy scenario — expectation FLAT OR UP,
next-day return +0.5 percent, threshold 0.3 — is scored correct, giving a
tally of (1, 0, 0) and a reported accuracy of 100 percent. -/
theorem C3_witness :
    tally [("FLAT OR UP", (1 : ℚ) / 2)] (3 / 10) = (1, 0, 0) ∧
    report_percent [("FLAT OR UP", (1 : ℚ) / 2)] (3 / 10) = 100 := by
  have hmem : ∀ o ∈ [("FLAT OR UP", (1 : ℚ) / 2)], o.1 ∈ expectation_strings := by
    intro o ho
    simp only [List.mem_singleton] at ho
    rw [ho]
    simp [expectation_strings]
  have h := C3_backtest_scoring [("FLAT OR UP", (1 : ℚ) / 2)] (3 / 10) hmem
  have hcond : spec_correct "FLAT OR UP" ((1 : ℚ) / 2) (3 / 10) = true := by
    simp only [spec_correct]
    norm_num
  have houtcome : spec_outcome "FLAT OR UP" ((1 : ℚ) / 2) (3 / 10) =
      PredOutcome.correct := by
    unfold spec_outcome
    rw [if_neg (by decide), if_pos hcond]
  have hc1 : List.countP (fun o => spec_outcome o.1 o.2 (3 / 10) == PredOutcome.correct)
      [("FLAT OR UP", (1 : ℚ) / 2)] = 1 := by
    simp only [List.countP_cons, List.countP_nil, houtcome]
    rfl
  have hc2 : List.countP (fun o => spec_outcome o.1 o.2 (3 / 10) == PredOutcome.wrong)
      [("FLAT OR UP", (1 : ℚ) / 2)] = 0 := by
    simp only [List.countP_cons, List.countP_nil, houtcome]
    rfl
  have hc3 : List.countP (fun o => spec_outcome o.1 o.2 (3 / 10) == PredOutcome.indecisive)
      [("FLAT OR UP", (1 : ℚ) / 2)] = 0 := by
    simp only [List.countP_cons, List.countP_nil, houtcome]
    rfl
  constructor
  · rw [h.2.2.1, hc1, hc2, hc3]
  · rw [h.2.2.2, hc1, hc2]
    norm_num
